import Mathlib

/-!
Verification of the multi-building selection and aggregation engine
(`src/routes/multi-building.ts`, class `MultiBuildingManager`).

Modelling conventions of the shallow embedding:
* JavaScript numbers are modelled as exact rationals (`ℚ`); `Math.floor` is `Rat.floor`.
* The insertion-ordered `Map<string, SelectedBuilding>` is an association list
  `List (String × SelectedBuilding)`; `Map.set` on an existing key replaces the value in
  place (keeping the original insertion position), otherwise it appends.
* The externally-owned `google.maps.Polygon` handles are opaque naturals; the registry
  never constructs or draws them, it only records `setMap(null)` detach instructions.
* The observable side effects of a method — invoking the change callback
  (`notifyUpdate`) and issuing detach instructions — are returned as an explicit list of
  `Effect`s next to the new state; methods whose bodies neither write a field nor call
  `notifyUpdate` (the queries `getBuilding`, `getAllBuildings`, `getActiveBuildings`,
  `hasBuilding`, `getAggregatedData`) are embedded as pure functions of the state.
* `Date.now()` is an explicit `now : ℕ` argument to `addBuilding`/`generateId`.
* `Math.sqrt(sq) < threshold` in `hasBuilding` is encoded by the equivalent
  rational-arithmetic test `0 < threshold ∧ sq < threshold²`; the lemma
  `MultiBuilding.sqrtLt_iff_sqrt_lt` proves the encoding equal to the source expression
  over the reals.
* Indexing `solarPanelConfigs[configId]` can hit `undefined` in JavaScript, making
  `getAggregatedData` throw on `config.panelsCount`; the embedding returns an `Option`,
  with `none` exactly on that out-of-range access.
-/

namespace MultiBuilding

/-- Opaque handle for an externally-owned `google.maps.Polygon` visual resource. -/
abbrev Polygon := ℕ

/-- A latitude/longitude pair in degrees (`google.maps.LatLng`). -/
structure LatLng where
  lat : ℚ
  lng : ℚ
  deriving DecidableEq

/-- One entry of `solarPotential.solarPanelConfigs`. -/
structure SolarPanelConfig where
  panelsCount : ℚ
  yearlyEnergyDcKwh : ℚ
  deriving DecidableEq

/-- The `wholeRoofStats` sub-object of `solarPotential`. -/
structure WholeRoofStats where
  areaMeters2 : ℚ
  deriving DecidableEq

/-- The fields of `buildingInsights.solarPotential` read by the engine. -/
structure SolarPotentialData where
  solarPanelConfigs : List SolarPanelConfig
  maxArrayPanelsCount : ℚ
  maxArrayAreaMeters2 : ℚ
  panelCapacityWatts : ℚ
  carbonOffsetFactorKgPerMwh : ℚ
  wholeRoofStats : WholeRoofStats
  deriving DecidableEq

/-- The part of a `BuildingInsightsResponse` the engine reads. -/
structure BuildingInsightsResponse where
  solarPotential : SolarPotentialData
  deriving DecidableEq

/-- The `SelectedBuilding` record of `multi-building.ts`. -/
structure SelectedBuilding where
  id : String
  buildingInsights : BuildingInsightsResponse
  configId : ℕ
  location : LatLng
  address : String
  nickname : Option String
  boundary : Option Polygon
  panels : List Polygon
  isActive : Bool
  deriving DecidableEq

/-- The `AggregatedSolarData` record returned by `getAggregatedData`. -/
structure AggregatedSolarData where
  totalPanelsCount : ℚ
  totalYearlyEnergyDcKwh : ℚ
  totalAreaMeters2 : ℚ
  totalMaxArrayPanelsCount : ℚ
  totalMaxArrayAreaMeters2 : ℚ
  totalRoofArea : ℚ
  buildings : List SelectedBuilding
  averagePanelCapacityWatts : ℚ
  totalCarbonOffsetKgPerYear : ℚ
  deriving DecidableEq

/-- An observable side effect of a registry method: a `setMap(null)` detach instruction
for an externally-owned polygon, or an invocation of the change callback with the full
ordered entry sequence. -/
inductive Effect where
  | detach (handle : Polygon)
  | notify (buildings : List SelectedBuilding)
  deriving DecidableEq

/-- The state of a `MultiBuildingManager`: the insertion-ordered id-keyed collection and
whether an `onUpdate` callback was passed to the constructor. -/
structure MultiBuildingManager where
  buildings : List (String × SelectedBuilding)
  hasCallback : Bool
  deriving DecidableEq

/-- JS `Map.get`. -/
def mapGet (m : List (String × SelectedBuilding)) (id : String) : Option SelectedBuilding :=
  (m.find? fun p => p.1 == id).map Prod.snd

/-- JS `Map.set`: replace in place when the key exists, append otherwise. -/
def mapSet (m : List (String × SelectedBuilding)) (id : String) (v : SelectedBuilding) :
    List (String × SelectedBuilding) :=
  if m.any fun p => p.1 == id then
    m.map fun p => if p.1 == id then (p.1, v) else p
  else
    m ++ [(id, v)]

/-- JS `Map.delete`. -/
def mapDelete (m : List (String × SelectedBuilding)) (id : String) :
    List (String × SelectedBuilding) :=
  m.filter fun p => p.1 != id

/-- In-place mutation of the entry object stored under `id`, as the `update*`/`toggle*`/
`set*` methods perform on the record returned by `Map.get`. -/
def mapModify (m : List (String × SelectedBuilding)) (id : String)
    (f : SelectedBuilding → SelectedBuilding) : List (String × SelectedBuilding) :=
  m.map fun p => if p.1 == id then (p.1, f p.2) else p

/-- The decimal digit character for a value below ten. -/
def digitChar : ℕ → Char
  | 0 => '0'
  | 1 => '1'
  | 2 => '2'
  | 3 => '3'
  | 4 => '4'
  | 5 => '5'
  | 6 => '6'
  | 7 => '7'
  | 8 => '8'
  | 9 => '9'
  | _ => '*'

/-- Fuel-driven decimal printer (structurally recursive so the kernel can evaluate it). -/
def natReprAux : ℕ → ℕ → List Char
  | 0, _ => []
  | fuel + 1, n =>
    if n < 10 then [digitChar n]
    else natReprAux fuel (n / 10) ++ [digitChar (n % 10)]

/-- The decimal representation of a natural number, as JS string interpolation prints
integers such as `Date.now()`. -/
def natRepr (n : ℕ) : List Char := natReprAux (n + 1) n

/-- JS `Number.prototype.toFixed(6)` on an exact rational: six fraction digits, rounding
to the nearest with ties away from zero, a leading minus sign for negative inputs. -/
def toFixed6 (q : ℚ) : List Char :=
  let n : ℕ := (Rat.floor (|q| * 1000000 + 1 / 2)).toNat
  let fp := natRepr (n % 1000000)
  (if q < 0 then ['-'] else []) ++ natRepr (n / 1000000) ++ ['.'] ++
    (List.replicate (6 - fp.length) '0' ++ fp)

/-- `MultiBuildingManager.generateId`; `now` stands for `Date.now()`. -/
def generateId (location : LatLng) (now : ℕ) : String :=
  String.mk ("building_".data ++ toFixed6 location.lat ++ ['_'] ++ toFixed6 location.lng ++
    ['_'] ++ natRepr now)

/-- The first match of the JS regular expression `/(\d+[a-zA-Z]?)/`: the leftmost maximal
run of decimal digits together with the single ASCII letter that immediately follows it,
when one does. -/
def firstToken : List Char → Option (List Char)
  | [] => none
  | c :: rest =>
    if c.isDigit then
      some ((c :: rest).takeWhile Char.isDigit ++
        match (c :: rest).dropWhile Char.isDigit with
        | a :: _ => if a.isAlpha then [a] else []
        | [] => [])
    else
      firstToken rest

/-- JS `address.split(',')[0]`: the text before the first comma. -/
def beforeComma (cs : List Char) : List Char := cs.takeWhile fun c => c != ','

/-- JS `String.prototype.trim`. -/
def trimChars (cs : List Char) : List Char :=
  ((cs.dropWhile Char.isWhitespace).reverse.dropWhile Char.isWhitespace).reverse

/-- `MultiBuildingManager.generateNickname`. -/
def generateNickname (address : String) : String :=
  let parts := trimChars (beforeComma address.data)
  match firstToken parts with
  | some tok => String.mk ("Gebäude ".data ++ tok)
  | none => "Gebäude"

/-- `MultiBuildingManager.getAllBuildings`. -/
def getAllBuildings (s : MultiBuildingManager) : List SelectedBuilding :=
  s.buildings.map Prod.snd

/-- `MultiBuildingManager.getActiveBuildings`. -/
def getActiveBuildings (s : MultiBuildingManager) : List SelectedBuilding :=
  (s.buildings.map Prod.snd).filter fun b => b.isActive

/-- `MultiBuildingManager.getBuilding`. -/
def getBuilding (s : MultiBuildingManager) (id : String) : Option SelectedBuilding :=
  mapGet s.buildings id

/-- `MultiBuildingManager.notifyUpdate`: the effects it emits from state `s`. -/
def notifyUpdate (s : MultiBuildingManager) : List Effect :=
  if s.hasCallback then [Effect.notify (getAllBuildings s)] else []

/-- `MultiBuildingManager.addBuilding`. -/
def addBuilding (s : MultiBuildingManager) (buildingInsights : BuildingInsightsResponse)
    (location : LatLng) (address : String) (configId : ℕ) (nickname : Option String)
    (now : ℕ) : MultiBuildingManager × List Effect × String :=
  let id := generateId location now
  let building : SelectedBuilding :=
    { id := id
      buildingInsights := buildingInsights
      configId := configId
      location := location
      address := address
      nickname := some (match nickname with
        | some n => if n = "" then generateNickname address else n
        | none => generateNickname address)
      boundary := none
      panels := []
      isActive := true }
  let s' := { s with buildings := mapSet s.buildings id building }
  (s', notifyUpdate s', id)

/-- The detach instructions `removeBuilding`/`clear` issue for one entry: the boundary
first, then each panel in order. -/
def detachAll (b : SelectedBuilding) : List Effect :=
  (match b.boundary with
    | some h => [Effect.detach h]
    | none => []) ++ b.panels.map Effect.detach

/-- `MultiBuildingManager.removeBuilding`. -/
def removeBuilding (s : MultiBuildingManager) (id : String) :
    MultiBuildingManager × List Effect × Bool :=
  match mapGet s.buildings id with
  | some building =>
    let s' := { s with buildings := mapDelete s.buildings id }
    (s', detachAll building ++ notifyUpdate s', true)
  | none => (s, [], false)

/-- `MultiBuildingManager.updateBuildingConfig`. -/
def updateBuildingConfig (s : MultiBuildingManager) (id : String) (configId : ℕ) :
    MultiBuildingManager × List Effect × Bool :=
  match mapGet s.buildings id with
  | some _ =>
    let s' := { s with
      buildings := mapModify s.buildings id fun b => { b with configId := configId } }
    (s', notifyUpdate s', true)
  | none => (s, [], false)

/-- `MultiBuildingManager.updateBuildingNickname`. -/
def updateBuildingNickname (s : MultiBuildingManager) (id : String) (nickname : String) :
    MultiBuildingManager × List Effect × Bool :=
  match mapGet s.buildings id with
  | some _ =>
    let s' := { s with
      buildings := mapModify s.buildings id fun b => { b with nickname := some nickname } }
    (s', notifyUpdate s', true)
  | none => (s, [], false)

/-- `MultiBuildingManager.toggleBuildingActive`. -/
def toggleBuildingActive (s : MultiBuildingManager) (id : String) :
    MultiBuildingManager × List Effect × Bool :=
  match mapGet s.buildings id with
  | some _ =>
    let s' := { s with
      buildings := mapModify s.buildings id fun b => { b with isActive := !b.isActive } }
    (s', notifyUpdate s', true)
  | none => (s, [], false)

/-- `MultiBuildingManager.setBuildingPanels` (no notification). -/
def setBuildingPanels (s : MultiBuildingManager) (id : String) (panels : List Polygon) :
    MultiBuildingManager × List Effect × Bool :=
  match mapGet s.buildings id with
  | some _ =>
    ({ s with buildings := mapModify s.buildings id fun b => { b with panels := panels } },
      [], true)
  | none => (s, [], false)

/-- `MultiBuildingManager.setBuildingBoundary` (no notification). -/
def setBuildingBoundary (s : MultiBuildingManager) (id : String) (boundary : Polygon) :
    MultiBuildingManager × List Effect × Bool :=
  match mapGet s.buildings id with
  | some _ =>
    ({ s with
        buildings := mapModify s.buildings id fun b => { b with boundary := some boundary } },
      [], true)
  | none => (s, [], false)

/-- `MultiBuildingManager.clear`. -/
def clear (s : MultiBuildingManager) : MultiBuildingManager × List Effect :=
  let detaches := (s.buildings.map fun p => detachAll p.2).flatten
  let s' := { s with buildings := [] }
  (s', detaches ++ notifyUpdate s')

/-- Encoding of `Math.sqrt(sq) < t` for a nonnegative radicand, in exact rational
arithmetic; `sqrtLt_iff_sqrt_lt` relates it to the real square root of the source. -/
def sqrtLt (sq t : ℚ) : Bool := decide (0 < t ∧ sq < t * t)

/-- The squared planar distance computed inside `hasBuilding` (`latDiff² + lngDiff²`,
with the source's `Math.abs` on each difference). -/
def sqDist (a b : LatLng) : ℚ :=
  let latDiff := |a.lat - b.lat|
  let lngDiff := |a.lng - b.lng|
  latDiff * latDiff + lngDiff * lngDiff

/-- `MultiBuildingManager.hasBuilding`: first entry in insertion order within the
threshold. -/
def hasBuilding (s : MultiBuildingManager) (location : LatLng) (threshold : ℚ) :
    Option String :=
  (s.buildings.find? fun p => sqrtLt (sqDist location p.2.location) threshold).map Prod.fst

/-- The running totals of the `for` loop in `getAggregatedData`. -/
structure AggAccum where
  totalPanelsCount : ℚ
  totalYearlyEnergyDcKwh : ℚ
  totalMaxArrayPanelsCount : ℚ
  totalMaxArrayAreaMeters2 : ℚ
  totalRoofArea : ℚ
  totalCarbonOffset : ℚ
  totalPanelCapacity : ℚ
  deriving DecidableEq

/-- All accumulators start at zero. -/
def aggInit : AggAccum := ⟨0, 0, 0, 0, 0, 0, 0⟩

/-- One iteration of the loop body of `getAggregatedData`; `none` when
`solarPanelConfigs[configId]` is `undefined` (the JS code then throws on
`config.panelsCount`). -/
def aggStep (r d : ℚ) (acc : AggAccum) (b : SelectedBuilding) : Option AggAccum :=
  match b.buildingInsights.solarPotential.solarPanelConfigs[b.configId]? with
  | none => none
  | some config =>
    let sp := b.buildingInsights.solarPotential
    some
      { totalPanelsCount := acc.totalPanelsCount + (Rat.floor (config.panelsCount * r) : ℚ)
        totalYearlyEnergyDcKwh := acc.totalYearlyEnergyDcKwh +
          config.yearlyEnergyDcKwh * r * d
        totalMaxArrayPanelsCount := acc.totalMaxArrayPanelsCount + sp.maxArrayPanelsCount
        totalMaxArrayAreaMeters2 := acc.totalMaxArrayAreaMeters2 + sp.maxArrayAreaMeters2
        totalRoofArea := acc.totalRoofArea + sp.wholeRoofStats.areaMeters2
        totalCarbonOffset := acc.totalCarbonOffset +
          config.yearlyEnergyDcKwh * r * d * sp.carbonOffsetFactorKgPerMwh / 1000
        totalPanelCapacity := acc.totalPanelCapacity + sp.panelCapacityWatts }

/-- The `for` loop of `getAggregatedData` over the active entries. -/
def aggLoop (r d : ℚ) : List SelectedBuilding → AggAccum → Option AggAccum
  | [], acc => some acc
  | b :: rest, acc =>
    match aggStep r d acc b with
    | none => none
    | some acc' => aggLoop r d rest acc'

/-- `MultiBuildingManager.getAggregatedData`. -/
def getAggregatedData (s : MultiBuildingManager) (r d : ℚ) : Option AggregatedSolarData :=
  let activeBuildings := getActiveBuildings s
  (aggLoop r d activeBuildings aggInit).map fun acc =>
    { totalPanelsCount := acc.totalPanelsCount
      totalYearlyEnergyDcKwh := acc.totalYearlyEnergyDcKwh
      totalAreaMeters2 := acc.totalPanelsCount * 2
      totalMaxArrayPanelsCount := acc.totalMaxArrayPanelsCount
      totalMaxArrayAreaMeters2 := acc.totalMaxArrayAreaMeters2
      totalRoofArea := acc.totalRoofArea
      buildings := activeBuildings
      averagePanelCapacityWatts :=
        if 0 < activeBuildings.length then acc.totalPanelCapacity / activeBuildings.length
        else 0
      totalCarbonOffsetKgPerYear := acc.totalCarbonOffset }

/-- The configuration selected by an entry, with an all-zero default out of range (the
claims only use it where `configId` is known to be in range). -/
def configOf (b : SelectedBuilding) : SolarPanelConfig :=
  b.buildingInsights.solarPotential.solarPanelConfigs.getD b.configId ⟨0, 0⟩

/-- The callback invocations among a method's emitted effects, each with the entry
sequence it passed to the observer. -/
def notifies (effects : List Effect) : List (List SelectedBuilding) :=
  effects.filterMap fun e =>
    match e with
    | .notify bs => some bs
    | .detach _ => none

/-- The detach instructions among a method's emitted effects. -/
def detaches (effects : List Effect) : List Polygon :=
  effects.filterMap fun e =>
    match e with
    | .detach h => some h
    | .notify _ => none

/-- The ids of the live entries, in insertion order. -/
def keys (m : List (String × SelectedBuilding)) : List String :=
  m.map Prod.fst

/-- The numeric value of a decimal digit character. -/
def charVal (c : Char) : ℕ := c.toNat - 48

/-- The number a digit string denotes, most significant digit first. -/
def listVal (cs : List Char) : ℕ :=
  cs.foldl (fun a c => 10 * a + charVal c) 0

/-- A solar dataset fixture: three configurations ordered by yield, building-level
figures 100 max panels, 200 m² max array, 400 W panels, 428 kg/MWh, 250 m² roof. -/
def sampleInsights : BuildingInsightsResponse :=
  { solarPotential :=
    { solarPanelConfigs := [⟨50, 20000⟩, ⟨75, 30000⟩, ⟨100, 40000⟩]
      maxArrayPanelsCount := 100
      maxArrayAreaMeters2 := 200
      panelCapacityWatts := 400
      carbonOffsetFactorKgPerMwh := 428
      wholeRoofStats := ⟨250⟩ } }

/-- A live active entry fixture with attached visual resources. -/
def sampleEntry : SelectedBuilding :=
  { id := "b1"
    buildingInsights := sampleInsights
    configId := 0
    location := ⟨5, 5⟩
    address := "Test Address 123"
    nickname := some "Test Building 1"
    boundary := some 5
    panels := [6, 7]
    isActive := true }

/-- A second live active entry fixture at the origin. -/
def sampleEntry2 : SelectedBuilding :=
  { id := "b2"
    buildingInsights := sampleInsights
    configId := 1
    location := ⟨0, 0⟩
    address := "Other Address 7, Town"
    nickname := some "Test Building 2"
    boundary := none
    panels := []
    isActive := true }

/-- A registry fixture holding the two entries, with a callback registered. -/
def sampleState : MultiBuildingManager :=
  ⟨[("b1", sampleEntry), ("b2", sampleEntry2)], true⟩

/-- A registry fixture with a single active entry whose chosen configuration has panel
count 50 and yearly yield 20000 (the concrete example of the spec). -/
def oneState : MultiBuildingManager :=
  ⟨[("b1", sampleEntry)], true⟩

/-- The empty registry fixture. -/
def emptyState : MultiBuildingManager := ⟨[], true⟩

/-- The spec's wording of the proximity test: the planar Euclidean distance in degrees,
`sqrt(Δlat² + Δlng²)` over the reals, is strictly below the threshold. -/
def withinReal (a b : LatLng) (t : ℚ) : Prop :=
  Real.sqrt ((((a.lat - b.lat : ℚ) : ℝ)) ^ 2 + (((a.lng - b.lng : ℚ) : ℝ)) ^ 2) < (t : ℝ)

theorem notifies_nil : notifies [] = [] := rfl

theorem notifies_append (a b : List Effect) : notifies (a ++ b) = notifies a ++ notifies b :=
  List.filterMap_append ..

theorem notifies_detachAll (b : SelectedBuilding) : notifies (detachAll b) = [] := by
  unfold notifies detachAll
  cases b.boundary <;> simp [List.filterMap_append, List.filterMap_map, Function.comp]

theorem notifies_notifyUpdate (s : MultiBuildingManager) :
    notifies (notifyUpdate s) = if s.hasCallback then [getAllBuildings s] else [] := by
  unfold notifyUpdate
  split <;> simp [notifies]

theorem notifies_clear_detaches (m : List (String × SelectedBuilding)) :
    notifies (m.map fun p => detachAll p.2).flatten = [] := by
  induction m with
  | nil => rfl
  | cons p rest ih =>
    simp only [List.map_cons, List.flatten_cons, notifies_append, notifies_detachAll,
      List.nil_append]
    exact ih

theorem mapGet_mapModify_self (m : List (String × SelectedBuilding)) (id : String)
    (f : SelectedBuilding → SelectedBuilding) :
    mapGet (mapModify m id f) id = (mapGet m id).map f := by
  induction m with
  | nil => rfl
  | cons p rest ih =>
    unfold mapGet mapModify at ih ⊢
    by_cases hp : p.1 == id
    · simp [List.find?, hp]
    · simp only [List.map_cons, List.find?]
      rw [if_neg (by simpa using hp)]
      simpa [hp] using ih

theorem mapModify_comp (m : List (String × SelectedBuilding)) (id : String)
    (f g : SelectedBuilding → SelectedBuilding) :
    mapModify (mapModify m id f) id g = mapModify m id fun b => g (f b) := by
  unfold mapModify
  rw [List.map_map]
  apply List.map_congr_left
  intro p _
  by_cases hp : p.1 == id <;> simp [Function.comp, hp]

theorem mapModify_id (m : List (String × SelectedBuilding)) (k : String) :
    mapModify m k (fun b => b) = m := by
  unfold mapModify
  rw [show (fun p : String × SelectedBuilding => if p.1 == k then (p.1, p.2) else p) =
      (fun p : String × SelectedBuilding => p) from
    funext fun p => by by_cases hp : p.1 == k <;> simp [hp]]
  exact List.map_id' m

theorem rat_floor_eq_int_floor (q : ℚ) : (Rat.floor q : ℤ) = ⌊q⌋ := rfl

theorem sqDist_nonneg (a b : LatLng) : 0 ≤ sqDist a b := by
  unfold sqDist
  positivity

theorem sqDist_cast (a b : LatLng) :
    ((sqDist a b : ℚ) : ℝ) =
      (((a.lat - b.lat : ℚ) : ℝ)) ^ 2 + (((a.lng - b.lng : ℚ) : ℝ)) ^ 2 := by
  unfold sqDist
  push_cast
  rw [abs_mul_abs_self, abs_mul_abs_self]
  ring

theorem sqrtLt_iff_sqrt_lt (sq t : ℚ) :
    sqrtLt sq t = true ↔ Real.sqrt (sq : ℝ) < (t : ℝ) := by
  unfold sqrtLt
  rw [decide_eq_true_eq]
  constructor
  · rintro ⟨ht, hlt⟩
    rw [Real.sqrt_lt' (by exact_mod_cast ht), pow_two]
    exact_mod_cast hlt
  · intro hs
    have ht : (0 : ℝ) < (t : ℝ) := lt_of_le_of_lt (Real.sqrt_nonneg _) hs
    refine ⟨by exact_mod_cast ht, ?_⟩
    have hx : (sq : ℝ) < (t : ℝ) ^ 2 := (Real.sqrt_lt' ht).1 hs
    rw [pow_two] at hx
    exact_mod_cast hx

theorem sqrtLt_sqDist_iff (a b : LatLng) (t : ℚ) :
    sqrtLt (sqDist a b) t = true ↔ withinReal a b t := by
  rw [sqrtLt_iff_sqrt_lt, sqDist_cast]
  exact Iff.rfl

theorem mapGet_mapSet_self (m : List (String × SelectedBuilding)) (k : String)
    (v : SelectedBuilding) : mapGet (mapSet m k v) k = some v := by
  unfold mapGet mapSet
  by_cases hany : m.any fun p => p.1 == k
  · rw [if_pos hany]
    induction m with
    | nil => simp at hany
    | cons p rest ih =>
      by_cases hp : p.1 == k
      · simp [List.find?, hp]
      · have hpf : (p.1 == k) = false := by simpa using hp
        simp only [List.any_cons, hpf, Bool.false_or] at hany
        simp only [List.map_cons]
        rw [if_neg hp]
        simp only [List.find?_cons, hpf]
        exact ih hany
  · rw [if_neg hany]
    rw [List.find?_append]
    have hnone : m.find? (fun p => p.1 == k) = none := by
      rw [List.find?_eq_none]
      intro x hx
      rw [Bool.not_eq_true] at hany ⊢
      rw [List.any_eq_false] at hany
      exact Bool.not_eq_true _ ▸ hany x hx
    simp [hnone, List.find?]

theorem charVal_digitChar : ∀ dd : ℕ, dd < 10 → charVal (digitChar dd) = dd := by decide

theorem listVal_append_digit (cs : List Char) (c : Char) :
    listVal (cs ++ [c]) = 10 * listVal cs + charVal c := by
  unfold listVal
  rw [List.foldl_append]
  rfl

theorem listVal_natReprAux : ∀ fuel n : ℕ, n < fuel → listVal (natReprAux fuel n) = n := by
  intro fuel
  induction fuel with
  | zero => exact fun n hn => absurd hn (Nat.not_lt_zero n)
  | succ fuel ih =>
    intro n hn
    by_cases h10 : n < 10
    · simp only [natReprAux, if_pos h10]
      unfold listVal
      simp only [List.foldl_cons, List.foldl_nil, Nat.mul_zero, Nat.zero_add]
      exact charVal_digitChar n h10
    · simp only [natReprAux, if_neg h10]
      rw [listVal_append_digit, ih (n / 10) (by omega),
        charVal_digitChar (n % 10) (Nat.mod_lt n (by omega))]
      omega

theorem natRepr_injective (m n : ℕ) (h : natRepr m = natRepr n) : m = n := by
  have hm := listVal_natReprAux (m + 1) m (Nat.lt_succ_self m)
  have hn := listVal_natReprAux (n + 1) n (Nat.lt_succ_self n)
  unfold natRepr at h
  rw [h] at hm
  exact hm.symm.trans hn

theorem generateId_inj_now (loc : LatLng) (n₁ n₂ : ℕ)
    (h : generateId loc n₁ = generateId loc n₂) : n₁ = n₂ := by
  unfold generateId at h
  have h' : "building_".data ++ toFixed6 loc.lat ++ ['_'] ++ toFixed6 loc.lng ++ ['_'] ++
      natRepr n₁ = "building_".data ++ toFixed6 loc.lat ++ ['_'] ++ toFixed6 loc.lng ++
      ['_'] ++ natRepr n₂ := congrArg String.data h
  simp only [List.append_assoc, List.append_cancel_left_eq] at h'
  exact natRepr_injective n₁ n₂ h'

theorem keys_mapSet_replace (m : List (String × SelectedBuilding)) (k : String)
    (v : SelectedBuilding) (h : (m.any fun p => p.1 == k) = true) :
    keys (mapSet m k v) = keys m := by
  unfold keys mapSet
  rw [if_pos h, List.map_map]
  apply List.map_congr_left
  intro p _
  by_cases hp : p.1 == k <;> simp [Function.comp, hp]

theorem keys_mapSet_append (m : List (String × SelectedBuilding)) (k : String)
    (v : SelectedBuilding) (h : (m.any fun p => p.1 == k) = false) :
    keys (mapSet m k v) = keys m ++ [k] := by
  unfold keys mapSet
  rw [if_neg (by simp [h]), List.map_append]
  rfl

/-- C8 counterexample: two adds at the same location with the same timestamp return the
same id — the second add returns an id that a live entry (created by the first add)
already held, and afterwards only one entry is live, so the two entries do not both
remain live. -/
theorem add_same_timestamp_counterexample :
    (addBuilding (addBuilding emptyState sampleInsights ⟨0, 0⟩ "A 1" 0 none 7).1
        sampleInsights ⟨0, 0⟩ "A 1" 0 none 7).2.2 =
      (addBuilding emptyState sampleInsights ⟨0, 0⟩ "A 1" 0 none 7).2.2 ∧
    (getBuilding (addBuilding emptyState sampleInsights ⟨0, 0⟩ "A 1" 0 none 7).1
      (addBuilding emptyState sampleInsights ⟨0, 0⟩ "A 1" 0 none 7).2.2).isSome = true ∧
    (addBuilding (addBuilding emptyState sampleInsights ⟨0, 0⟩ "A 1" 0 none 7).1
        sampleInsights ⟨0, 0⟩ "A 1" 0 none 7).1.buildings.length = 1 := by
  with_unfolding_all decide

/-- C8 as amended: ids are unique across live entries (the collection is keyed by id:
with no duplicate keys, add keeps the keys duplicate-free), and add returns a fresh id
and preserves every existing entry `whenever` the generated id — the coordinates to six
decimals plus the timestamp — is not already a live entry's id; in particular two adds
at the same location whose timestamps differ always yield different ids. -/
theorem id_uniqueness_and_freshness (s : MultiBuildingManager)
    (ins : BuildingInsightsResponse) (loc : LatLng) (addr : String) (cfg : ℕ)
    (nick : Option String) (now n₁ n₂ : ℕ) (hnodup : (keys s.buildings).Nodup)
    (hfresh : generateId loc now ∉ keys s.buildings) (hne : n₁ ≠ n₂) :
    (keys (addBuilding s ins loc addr cfg nick now).1.buildings).Nodup ∧
    (addBuilding s ins loc addr cfg nick now).2.2 ∉ keys s.buildings ∧
    (addBuilding s ins loc addr cfg nick now).1.buildings.length =
      s.buildings.length + 1 ∧
    (∀ p ∈ s.buildings, p ∈ (addBuilding s ins loc addr cfg nick now).1.buildings) ∧
    generateId loc n₁ ≠ generateId loc n₂ := by
  have hanyf : (s.buildings.any fun p => p.1 == generateId loc now) = false := by
    rw [List.any_eq_false]
    intro p hp hpk
    exact hfresh (List.mem_map.2 ⟨p, hp, by simpa using hpk⟩)
  have hset : ∀ B : SelectedBuilding, mapSet s.buildings (generateId loc now) B =
      s.buildings ++ [(generateId loc now, B)] := by
    intro B
    unfold mapSet
    rw [if_neg (by simp [hanyf])]
  refine ⟨?_, hfresh, ?_, ?_, fun hcontra => hne (generateId_inj_now loc n₁ n₂ hcontra)⟩
  · unfold addBuilding
    dsimp only
    rw [hset]
    unfold keys at hnodup hfresh ⊢
    rw [List.map_append]
    simp [List.nodup_append, List.disjoint_singleton, hnodup, hfresh]
  · unfold addBuilding
    dsimp only
    rw [hset]
    simp
  · intro p hp
    unfold addBuilding
    dsimp only
    rw [hset]
    exact List.mem_append_left _ hp

/-- Witness for C8 at the two-entry fixture: the generated id for the origin at
timestamp 7 is fresh, and timestamps 7 and 8 give different ids. -/
theorem id_uniqueness_and_freshness_witness :
    ((keys sampleState.buildings).Nodup ∧
      generateId ⟨0, 0⟩ 7 ∉ keys sampleState.buildings ∧ (7 : ℕ) ≠ 8) ∧
    generateId ⟨0, 0⟩ 7 ≠ generateId ⟨0, 0⟩ 8 :=
  ⟨⟨by decide, by with_unfolding_all decide, by decide⟩,
    (id_uniqueness_and_freshness sampleState sampleInsights ⟨0, 0⟩ "A 1" 0 none 7 7 8
      (by decide) (by with_unfolding_all decide) (by decide)).2.2.2.2⟩

theorem detaches_notifyUpdate (s : MultiBuildingManager) :
    detaches (notifyUpdate s) = [] := by
  unfold notifyUpdate
  split <;> simp [detaches]

theorem mapSet_length_replace (m : List (String × SelectedBuilding)) (k : String)
    (v : SelectedBuilding) (h : (m.any fun p => p.1 == k) = true) :
    (mapSet m k v).length = m.length := by
  unfold mapSet
  rw [if_pos h, List.length_map]

/-- C9: when the generated id (same coordinates to six decimals, same timestamp) is
already held by a live entry, add silently replaces that entry — the collection size
does not grow, the lookup under the id now yields the newly created record (empty panel
list, no boundary, active, the new configIndex), the replaced entry's visual resources
get no detach instruction, and no error is reported (the id is returned normally). -/
theorem add_collision_replaces (s : MultiBuildingManager) (ins : BuildingInsightsResponse)
    (loc : LatLng) (addr : String) (cfg : ℕ) (nick : Option String) (now : ℕ)
    (h : (mapGet s.buildings (generateId loc now)).isSome = true) :
    (addBuilding s ins loc addr cfg nick now).1.buildings.length = s.buildings.length ∧
    (getBuilding (addBuilding s ins loc addr cfg nick now).1 (generateId loc now)).map
        (fun e => (e.buildingInsights, e.configId, e.panels, e.boundary, e.isActive)) =
      some (ins, cfg, [], none, true) ∧
    detaches (addBuilding s ins loc addr cfg nick now).2.1 = [] ∧
    (addBuilding s ins loc addr cfg nick now).2.2 = generateId loc now := by
  have hany : (s.buildings.any fun p => p.1 == generateId loc now) = true := by
    rw [List.any_eq_true]
    unfold mapGet at h
    rw [Option.isSome_map'] at h
    obtain ⟨p, hfind⟩ := Option.isSome_iff_exists.1 h
    have hp := List.find?_some hfind
    exact ⟨p, List.mem_of_find?_eq_some hfind, by simpa using hp⟩
  refine ⟨?_, ?_, ?_, rfl⟩
  · unfold addBuilding
    dsimp only
    exact mapSet_length_replace s.buildings _ _ hany
  · unfold addBuilding getBuilding
    dsimp only
    rw [mapGet_mapSet_self]
    rfl
  · unfold addBuilding
    dsimp only
    exact detaches_notifyUpdate _

/-- Witness for C9: a second add at the origin with the same timestamp 7 keeps the
collection at one entry. -/
theorem add_collision_replaces_witness :
    (mapGet (addBuilding emptyState sampleInsights ⟨0, 0⟩ "A 1" 0 none 7).1.buildings
      (generateId ⟨0, 0⟩ 7)).isSome = true ∧
    (addBuilding (addBuilding emptyState sampleInsights ⟨0, 0⟩ "A 1" 0 none 7).1
        sampleInsights ⟨0, 0⟩ "B 2" 1 none 7).1.buildings.length =
      (addBuilding emptyState sampleInsights ⟨0, 0⟩ "A 1" 0 none 7).1.buildings.length :=
  ⟨by with_unfolding_all decide,
    (add_collision_replaces (addBuilding emptyState sampleInsights ⟨0, 0⟩ "A 1" 0 none 7).1
      sampleInsights ⟨0, 0⟩ "B 2" 1 none 7 (by with_unfolding_all decide)).1⟩

/-- C4 counterexample: adding with the nickname omitted and address "Apt 14a, X" stores
the nickname "Gebäude 14a", which is neither "Building 14a" nor the generic "Building"
the claim prescribes (the matched token is also not at the start of the pre-comma
text). -/
theorem nickname_label_counterexample :
    ((getBuilding (addBuilding emptyState sampleInsights ⟨0, 0⟩ "Apt 14a, X" 0 none 7).1
        (addBuilding emptyState sampleInsights ⟨0, 0⟩ "Apt 14a, X" 0 none 7).2.2).map
      fun e => e.nickname) = some (some "Gebäude 14a") ∧
    "Gebäude 14a" ≠ "Building 14a" ∧ "Gebäude 14a" ≠ "Building" := by
  with_unfolding_all decide

/-- C4 as amended: when add is called with the nickname omitted, the stored nickname is
derived from the address by taking the text before the first comma, trimming it, and
searching it for the first numeric token anywhere in the text (digits optionally
followed by a single letter); if found the nickname is "Gebäude {token}" — the code's
German label, not "Building {token}" — and otherwise the generic label "Gebäude". -/
theorem default_nickname_derivation (s : MultiBuildingManager)
    (ins : BuildingInsightsResponse) (loc : LatLng) (addr : String) (cfg : ℕ) (now : ℕ) :
    (getBuilding (addBuilding s ins loc addr cfg none now).1
        (addBuilding s ins loc addr cfg none now).2.2).map (fun e => e.nickname) =
      some (some (match firstToken (trimChars (beforeComma addr.data)) with
        | some tok => String.mk ("Gebäude ".data ++ tok)
        | none => "Gebäude")) := by
  unfold addBuilding
  dsimp only
  unfold getBuilding
  rw [mapGet_mapSet_self]
  rfl

/-- C3: proximityMatch returns the id of the first entry in insertion order whose planar
Euclidean distance in degrees (`sqrt(Δlat² + Δlng²)`, over the reals) to the given
location is strictly below the threshold, and returns none exactly when no live entry is
that close. -/
theorem proximity_first_within_threshold (s : MultiBuildingManager) (loc : LatLng)
    (t : ℚ) :
    (hasBuilding s loc t = none ↔ ∀ p ∈ s.buildings, ¬ withinReal loc p.2.location t) ∧
    (∀ k, hasBuilding s loc t = some k →
      ∃ l₁ p l₂, s.buildings = l₁ ++ p :: l₂ ∧ p.1 = k ∧ withinReal loc p.2.location t ∧
        ∀ q ∈ l₁, ¬ withinReal loc q.2.location t) := by
  constructor
  · unfold hasBuilding
    rw [Option.map_eq_none', List.find?_eq_none]
    constructor
    · intro h p hp
      rw [← sqrtLt_sqDist_iff loc p.2.location t]
      simpa using h p hp
    · intro h p hp
      have := h p hp
      rw [← sqrtLt_sqDist_iff loc p.2.location t] at this
      simpa using this
  · intro k hk
    unfold hasBuilding at hk
    rw [Option.map_eq_some'] at hk
    obtain ⟨p, hfind, hfst⟩ := hk
    rw [List.find?_eq_some] at hfind
    obtain ⟨hpred, l₁, l₂, hsplit, hprior⟩ := hfind
    refine ⟨l₁, p, l₂, hsplit, hfst, (sqrtLt_sqDist_iff loc p.2.location t).1 hpred, ?_⟩
    intro q hq
    have := hprior q hq
    rw [← sqrtLt_sqDist_iff loc q.2.location t]
    simpa using this

/-- Witness for C3 at the two-entry fixture: the entry at (5,5) is outside a 0.1°
threshold from the origin, the entry at the origin is inside, so the scan returns the
second entry's id "b2". -/
theorem proximity_first_within_threshold_witness :
    ∃ l₁ p l₂, sampleState.buildings = l₁ ++ p :: l₂ ∧ p.1 = "b2" ∧
      withinReal ⟨0, 0⟩ p.2.location (1 / 10) ∧
      ∀ q ∈ l₁, ¬ withinReal ⟨0, 0⟩ q.2.location (1 / 10) :=
  (proximity_first_within_threshold sampleState ⟨0, 0⟩ (1 / 10)).2 "b2"
    (by with_unfolding_all decide)

theorem aggLoop_eq_some (r d : ℚ) (l : List SelectedBuilding) (acc : AggAccum)
    (h : ∀ b ∈ l, b.configId < b.buildingInsights.solarPotential.solarPanelConfigs.length) :
    aggLoop r d l acc = some
      { totalPanelsCount := acc.totalPanelsCount +
          (l.map fun b => ((Rat.floor ((configOf b).panelsCount * r) : ℤ) : ℚ)).sum
        totalYearlyEnergyDcKwh := acc.totalYearlyEnergyDcKwh +
          (l.map fun b => (configOf b).yearlyEnergyDcKwh * r * d).sum
        totalMaxArrayPanelsCount := acc.totalMaxArrayPanelsCount +
          (l.map fun b => b.buildingInsights.solarPotential.maxArrayPanelsCount).sum
        totalMaxArrayAreaMeters2 := acc.totalMaxArrayAreaMeters2 +
          (l.map fun b => b.buildingInsights.solarPotential.maxArrayAreaMeters2).sum
        totalRoofArea := acc.totalRoofArea +
          (l.map fun b => b.buildingInsights.solarPotential.wholeRoofStats.areaMeters2).sum
        totalCarbonOffset := acc.totalCarbonOffset +
          (l.map fun b => (configOf b).yearlyEnergyDcKwh * r * d *
            b.buildingInsights.solarPotential.carbonOffsetFactorKgPerMwh / 1000).sum
        totalPanelCapacity := acc.totalPanelCapacity +
          (l.map fun b => b.buildingInsights.solarPotential.panelCapacityWatts).sum } := by
  induction l generalizing acc with
  | nil => simp [aggLoop]
  | cons b rest ih =>
    have hb := h b (List.mem_cons_self b rest)
    have hcfg : b.buildingInsights.solarPotential.solarPanelConfigs[b.configId]? =
        some (configOf b) := by
      rw [List.getElem?_eq_getElem hb]
      unfold configOf
      rw [List.getD_eq_getElem?_getD, List.getElem?_eq_getElem hb]
      rfl
    simp only [aggLoop, aggStep, hcfg]
    rw [ih _ fun x hx => h x (List.mem_cons_of_mem _ hx)]
    simp [add_assoc]

/-- C1: under the precondition that every active entry's configIndex is in range,
aggregate returns exactly the sums of the spec over the active entries — floored scaled
panel counts, derated yearly AC energy, the building-level insights figures, the carbon
offset, the fixed 2 m² per-panel total area, and the active sequence itself. -/
theorem aggregate_sums_over_active (s : MultiBuildingManager) (r d : ℚ)
    (h : ∀ b ∈ getActiveBuildings s,
      b.configId < b.buildingInsights.solarPotential.solarPanelConfigs.length) :
    getAggregatedData s r d = some
      { totalPanelsCount :=
          ((getActiveBuildings s).map fun b =>
            ((Rat.floor ((configOf b).panelsCount * r) : ℤ) : ℚ)).sum
        totalYearlyEnergyDcKwh :=
          ((getActiveBuildings s).map fun b => (configOf b).yearlyEnergyDcKwh * r * d).sum
        totalAreaMeters2 :=
          (((getActiveBuildings s).map fun b =>
            ((Rat.floor ((configOf b).panelsCount * r) : ℤ) : ℚ)).sum) * 2
        totalMaxArrayPanelsCount :=
          ((getActiveBuildings s).map fun b =>
            b.buildingInsights.solarPotential.maxArrayPanelsCount).sum
        totalMaxArrayAreaMeters2 :=
          ((getActiveBuildings s).map fun b =>
            b.buildingInsights.solarPotential.maxArrayAreaMeters2).sum
        totalRoofArea :=
          ((getActiveBuildings s).map fun b =>
            b.buildingInsights.solarPotential.wholeRoofStats.areaMeters2).sum
        buildings := getActiveBuildings s
        averagePanelCapacityWatts :=
          if 0 < (getActiveBuildings s).length then
            (((getActiveBuildings s).map fun b =>
              b.buildingInsights.solarPotential.panelCapacityWatts).sum) /
              (getActiveBuildings s).length
          else 0
        totalCarbonOffsetKgPerYear :=
          ((getActiveBuildings s).map fun b => (configOf b).yearlyEnergyDcKwh * r * d *
            b.buildingInsights.solarPotential.carbonOffsetFactorKgPerMwh / 1000).sum } := by
  unfold getAggregatedData
  dsimp only
  rw [aggLoop_eq_some r d _ aggInit h]
  simp [aggInit]

/-- Witness for C1: one active entry with panel count 50 and yearly DC yield 20000 at
capacity scale 1 and derate 0.85 gives totalYearlyEnergyAc = 17000 (and the other sums
of the fixture). -/
theorem aggregate_sums_over_active_witness :
    (∀ b ∈ getActiveBuildings oneState,
      b.configId < b.buildingInsights.solarPotential.solarPanelConfigs.length) ∧
    getAggregatedData oneState 1 (17 / 20) = some
      { totalPanelsCount := 50
        totalYearlyEnergyDcKwh := 17000
        totalAreaMeters2 := 100
        totalMaxArrayPanelsCount := 100
        totalMaxArrayAreaMeters2 := 200
        totalRoofArea := 250
        buildings := [sampleEntry]
        averagePanelCapacityWatts := 400
        totalCarbonOffsetKgPerYear := 7276 } := by
  refine ⟨by decide, ?_⟩
  rw [aggregate_sums_over_active oneState 1 (17 / 20) (by decide)]
  norm_num [getActiveBuildings, oneState, sampleEntry, sampleInsights, configOf,
    rat_floor_eq_int_floor]

/-- C6: with zero active entries aggregate succeeds, every summed field and the average
are 0, and the buildings list is empty (the division is behind the length guard, so its
error branch is unreachable). -/
theorem aggregate_empty_zeroes (s : MultiBuildingManager) (r d : ℚ)
    (h : getActiveBuildings s = []) :
    getAggregatedData s r d = some ⟨0, 0, 0, 0, 0, 0, [], 0, 0⟩ := by
  unfold getAggregatedData
  rw [h]
  simp [aggLoop, aggInit]

/-- Witness for C6 at the empty fixture. -/
theorem aggregate_empty_zeroes_witness :
    getActiveBuildings emptyState = [] ∧
    getAggregatedData emptyState 1 (17 / 20) = some ⟨0, 0, 0, 0, 0, 0, [], 0, 0⟩ :=
  ⟨rfl, aggregate_empty_zeroes emptyState 1 (17 / 20) rfl⟩

/-- C10: aggregate is a pure query — it is embedded as a function of the state because
its source body writes no field and never calls `notifyUpdate` — and the buildings field
of its result is exactly the active sequence, which is the insertion-ordered filter of
the full sequence. -/
theorem aggregate_query_buildings (s : MultiBuildingManager) (r d : ℚ)
    (res : AggregatedSolarData) (h : getAggregatedData s r d = some res) :
    res.buildings = getActiveBuildings s ∧
    getActiveBuildings s = (getAllBuildings s).filter fun b => b.isActive := by
  refine ⟨?_, rfl⟩
  unfold getAggregatedData at h
  dsimp only at h
  cases hl : aggLoop r d (getActiveBuildings s) aggInit with
  | none =>
    rw [hl] at h
    rw [Option.map_none'] at h
    exact Option.noConfusion h
  | some acc =>
    rw [hl] at h
    simp only [Option.map_some', Option.some.injEq] at h
    rw [← h]

/-- Witness for C10 at the empty fixture. -/
theorem aggregate_query_buildings_witness :
    getAggregatedData emptyState 1 1 = some ⟨0, 0, 0, 0, 0, 0, [], 0, 0⟩ ∧
    (⟨0, 0, 0, 0, 0, 0, [], 0, 0⟩ : AggregatedSolarData).buildings =
      getActiveBuildings emptyState :=
  ⟨by simp [getAggregatedData, getActiveBuildings, emptyState, aggLoop, aggInit],
    (aggregate_query_buildings emptyState 1 1 ⟨0, 0, 0, 0, 0, 0, [], 0, 0⟩
      (by simp [getAggregatedData, getActiveBuildings, emptyState, aggLoop, aggInit])).1⟩

/-- C5: on an id held by no live entry, each of remove, updateConfig, updateNickname,
toggleActive, setPanels, and setBoundary returns false, leaves the registry unchanged,
and emits no effect (so no change notification); not-found is reported only through this
boolean return — every operation is a total function, never a thrown failure. -/
theorem absent_id_no_side_effects (s : MultiBuildingManager) (k : String) (c : ℕ)
    (nn : String) (ps : List Polygon) (bd : Polygon) (h : getBuilding s k = none) :
    removeBuilding s k = (s, [], false) ∧
    updateBuildingConfig s k c = (s, [], false) ∧
    updateBuildingNickname s k nn = (s, [], false) ∧
    toggleBuildingActive s k = (s, [], false) ∧
    setBuildingPanels s k ps = (s, [], false) ∧
    setBuildingBoundary s k bd = (s, [], false) := by
  have h' : mapGet s.buildings k = none := h
  refine ⟨?_, ?_, ?_, ?_, ?_, ?_⟩ <;>
    simp [removeBuilding, updateBuildingConfig, updateBuildingNickname, toggleBuildingActive,
      setBuildingPanels, setBuildingBoundary, h']

/-- Witness for C5 at the two-entry fixture and the unknown id "zzz". -/
theorem absent_id_no_side_effects_witness :
    getBuilding sampleState "zzz" = none ∧
    removeBuilding sampleState "zzz" = (sampleState, [], false) :=
  ⟨by decide, (absent_id_no_side_effects sampleState "zzz" 2 "n" [] 0 (by decide)).1⟩

/-- C2: on every registry constructed with a callback, add and clear invoke the callback
exactly once — whatever the collection holds, the empty registry and the very first add
included — and remove, updateConfig, updateNickname, and toggleActive invoke it exactly
once on any live id, in each case passing the full current insertion-ordered entry
sequence of the post-state; setPanels and setBoundary emit no effect at all on any id
(so never invoke it) — the queries getBuilding, getAllBuildings, getActiveBuildings,
hasBuilding, and getAggregatedData are embedded as pure functions of the state because
their source bodies neither write a field nor call `notifyUpdate`. Without a callback
every mutation produces the same collection and return value, with no notification: the
callback is simply skipped. -/
theorem notify_exactly_once_per_mutation (s : MultiBuildingManager) (k : String)
    (ins : BuildingInsightsResponse) (loc : LatLng) (addr : String)
    (cfg : ℕ) (nick : Option String) (now : ℕ) (c : ℕ) (nn : String) (ps : List Polygon)
    (bd : Polygon) :
    (s.hasCallback = true →
      notifies (addBuilding s ins loc addr cfg nick now).2.1 =
        [getAllBuildings (addBuilding s ins loc addr cfg nick now).1] ∧
      notifies (clear s).2 = [getAllBuildings (clear s).1] ∧
      ∀ b, getBuilding s k = some b →
        notifies (removeBuilding s k).2.1 = [getAllBuildings (removeBuilding s k).1] ∧
        notifies (updateBuildingConfig s k c).2.1 =
          [getAllBuildings (updateBuildingConfig s k c).1] ∧
        notifies (updateBuildingNickname s k nn).2.1 =
          [getAllBuildings (updateBuildingNickname s k nn).1] ∧
        notifies (toggleBuildingActive s k).2.1 =
          [getAllBuildings (toggleBuildingActive s k).1]) ∧
    (setBuildingPanels s k ps).2.1 = [] ∧
    (setBuildingBoundary s k bd).2.1 = [] ∧
    ((addBuilding ⟨s.buildings, false⟩ ins loc addr cfg nick now).1.buildings =
        (addBuilding s ins loc addr cfg nick now).1.buildings ∧
      (addBuilding ⟨s.buildings, false⟩ ins loc addr cfg nick now).2.2 =
        (addBuilding s ins loc addr cfg nick now).2.2 ∧
      notifies (addBuilding ⟨s.buildings, false⟩ ins loc addr cfg nick now).2.1 = []) ∧
    ((removeBuilding ⟨s.buildings, false⟩ k).1.buildings = (removeBuilding s k).1.buildings ∧
      (removeBuilding ⟨s.buildings, false⟩ k).2.2 = (removeBuilding s k).2.2 ∧
      notifies (removeBuilding ⟨s.buildings, false⟩ k).2.1 = []) ∧
    ((updateBuildingConfig ⟨s.buildings, false⟩ k c).1.buildings =
        (updateBuildingConfig s k c).1.buildings ∧
      (updateBuildingConfig ⟨s.buildings, false⟩ k c).2.2 =
        (updateBuildingConfig s k c).2.2 ∧
      notifies (updateBuildingConfig ⟨s.buildings, false⟩ k c).2.1 = []) ∧
    ((updateBuildingNickname ⟨s.buildings, false⟩ k nn).1.buildings =
        (updateBuildingNickname s k nn).1.buildings ∧
      (updateBuildingNickname ⟨s.buildings, false⟩ k nn).2.2 =
        (updateBuildingNickname s k nn).2.2 ∧
      notifies (updateBuildingNickname ⟨s.buildings, false⟩ k nn).2.1 = []) ∧
    ((toggleBuildingActive ⟨s.buildings, false⟩ k).1.buildings =
        (toggleBuildingActive s k).1.buildings ∧
      (toggleBuildingActive ⟨s.buildings, false⟩ k).2.2 = (toggleBuildingActive s k).2.2 ∧
      notifies (toggleBuildingActive ⟨s.buildings, false⟩ k).2.1 = []) ∧
    ((clear ⟨s.buildings, false⟩).1.buildings = (clear s).1.buildings ∧
      notifies (clear ⟨s.buildings, false⟩).2 = []) := by
  refine ⟨fun hc => ⟨?_, ?_, fun b hb => ?_⟩, ?_, ?_, ?_, ?_, ?_, ?_, ?_, ?_⟩
  · simp [addBuilding, notifies_notifyUpdate, hc]
  · simp [clear, notifies_append, notifies_clear_detaches, notifies_notifyUpdate, hc]
  · have h' : mapGet s.buildings k = some b := hb
    refine ⟨?_, ?_, ?_, ?_⟩ <;>
      simp [removeBuilding, updateBuildingConfig, updateBuildingNickname,
        toggleBuildingActive, h', notifies_append, notifies_detachAll,
        notifies_notifyUpdate, hc]
  · cases hm : mapGet s.buildings k <;> simp [setBuildingPanels, hm]
  · cases hm : mapGet s.buildings k <;> simp [setBuildingBoundary, hm]
  · simp [addBuilding, notifies_notifyUpdate]
  · cases hm : mapGet s.buildings k <;>
      simp [removeBuilding, hm, notifies_nil, notifies_append, notifies_detachAll,
        notifies_notifyUpdate]
  · cases hm : mapGet s.buildings k <;>
      simp [updateBuildingConfig, hm, notifies_nil, notifies_notifyUpdate]
  · cases hm : mapGet s.buildings k <;>
      simp [updateBuildingNickname, hm, notifies_nil, notifies_notifyUpdate]
  · cases hm : mapGet s.buildings k <;>
      simp [toggleBuildingActive, hm, notifies_nil, notifies_notifyUpdate]
  · simp [clear, notifies_append, notifies_clear_detaches, notifies_notifyUpdate]

/-- Witness for C2 at the two-entry fixture: the callback is registered, id "b1" is
live, and remove notifies exactly once with the full post-state sequence. -/
theorem notify_exactly_once_per_mutation_witness :
    sampleState.hasCallback = true ∧
    getBuilding sampleState "b1" = some sampleEntry ∧
    notifies (removeBuilding sampleState "b1").2.1 =
      [getAllBuildings (removeBuilding sampleState "b1").1] :=
  ⟨rfl, by decide,
    (((notify_exactly_once_per_mutation sampleState "b1" sampleInsights ⟨0, 0⟩
      "A 1" 0 none 7 2 "n" [] 0).1 rfl).2.2 sampleEntry (by decide)).1⟩

/-- C7: two consecutive `toggleActive` calls on a live id both return true and leave the
registry state exactly as it was, every field of every entry included. -/
theorem toggle_twice_identity (s : MultiBuildingManager) (k : String) (b : SelectedBuilding)
    (h : getBuilding s k = some b) :
    (toggleBuildingActive s k).2.2 = true ∧
    (toggleBuildingActive (toggleBuildingActive s k).1 k).2.2 = true ∧
    (toggleBuildingActive (toggleBuildingActive s k).1 k).1 = s := by
  have h' : mapGet s.buildings k = some b := h
  have h1 : toggleBuildingActive s k =
      ({ s with buildings := mapModify s.buildings k fun e => { e with isActive := !e.isActive } },
        notifyUpdate { s with
          buildings := mapModify s.buildings k fun e => { e with isActive := !e.isActive } },
        true) := by
    simp [toggleBuildingActive, h']
  have h2 : mapGet (mapModify s.buildings k fun e => { e with isActive := !e.isActive }) k =
      some { b with isActive := !b.isActive } := by
    rw [mapGet_mapModify_self, h']
    rfl
  refine ⟨by rw [h1], ?_, ?_⟩
  · rw [h1]
    simp [toggleBuildingActive, h2]
  · rw [h1]
    simp only [toggleBuildingActive, h2]
    rw [mapModify_comp]
    have : (fun e : SelectedBuilding =>
        { { e with isActive := !e.isActive } with isActive := !(!e.isActive) }) =
        (fun e : SelectedBuilding => e) := by
      funext e
      cases e
      simp
    rw [this, mapModify_id]

/-- Witness for C7 at the two-entry fixture on id "b1". -/
theorem toggle_twice_identity_witness :
    getBuilding sampleState "b1" = some sampleEntry ∧
    (toggleBuildingActive (toggleBuildingActive sampleState "b1").1 "b1").1 = sampleState :=
  ⟨by decide, (toggle_twice_identity sampleState "b1" sampleEntry (by decide)).2.2⟩

end MultiBuilding
